import Mathlib

/-!
Verification of the invoice feature pipeline in
`faturas_fake_generator/generator.py`.

The program builds a per-customer invoice table (pandas `DataFrame`) and
annotates every invoice with trailing-window statistics.  We embed each
row as a `Fatura` record and every pipeline stage as a function over
`List Fatura`, mirroring the Python code:

* `gerar_faturas` (lines 55--66): rows are appended customer by customer
  and `numero_fatura` is `groupby('cliente').cumcount() + 1`;
* `marcar_faturas_pagas` (lines 77--92);
* `calcular_media_vl_fatura` / `calcular_sd_vl_fatura` (lines 106--152):
  these iterate each customer's rows in `(cliente, numero_fatura)` order,
  select the rows with `numero_fatura <` the current one and take
  `.tail(12)` of the resulting series;
* `calcular_zscore_faturas` (lines 166--171);
* `marcar_pagamento_antes_vencimento` / `calcular_dias_pagamento`
  (lines 182--210), with the `random` draws supplied as oracle functions;
* `calcular_frequencia_faturas_aberto_12_meses` (lines 226--240);
* `calcular_total_devido` (lines 256--280).

Monetary values are modelled as `ℚ`.  pandas `Series.std()` uses `ddof = 1`
(sample standard deviation); we embed its square, the sample variance
`varAmostral`, so equality of standard deviations is equality of
`varAmostral` on the same window (square roots of equal non-negative
numbers agree).
-/

namespace FaturasFake

/-- One row of the invoice table: the columns actually read or written by
the pipeline stages under study. -/
structure Fatura where
  cliente : ℕ
  numero : ℕ
  valor : ℚ
  statusPago : Bool
  pagoAntesVencimento : Bool
  diasPagamento : ℤ
deriving Repr, DecidableEq

instance : Inhabited Fatura := ⟨⟨0, 0, 0, true, false, 0⟩⟩

/-- The rows of one customer, in table order: `df[df['cliente'] == cliente]`. -/
def linhasCliente (df : List Fatura) (c : ℕ) : List Fatura :=
  df.filter (fun f => f.cliente == c)

/-- pandas `Series.tail n`: the last `n` entries (all of them when the
series is shorter). -/
def tailPandas (n : ℕ) (l : List ℚ) : List ℚ := l.drop (l.length - n)

/-- pandas `Series.mean`: sum divided by length. -/
def media (l : List ℚ) : ℚ := l.sum / l.length

/-- Square of pandas `Series.std()` (sample variance, `ddof = 1`). The
code's rolling standard deviation is the square root of this quantity. -/
def varAmostral (l : List ℚ) : ℚ :=
  ((l.map (fun x => (x - media l) ^ 2)).sum) / ((l.length : ℚ) - 1)

/-- Line 119: the values (under accessor `v`, the `coluna_valor`
parameter) of this customer's rows with `numero_fatura` below `k`, in
table order. -/
def faturasAnteriores (v : Fatura → ℚ) (df : List Fatura) (c k : ℕ) : List ℚ :=
  ((linhasCliente df c).filter (fun f => decide (f.numero < k))).map v

/-- Lines 113--120 of `calcular_media_vl_fatura`, evaluated at customer
`c` and invoice number `k`: for `k ∈ {1, 2}` the value at
`cliente_indices[0]` (the customer's first row in sorted order),
otherwise `faturas_anteriores.tail(12).mean()`. -/
def calcular_media_vl_fatura (v : Fatura → ℚ) (df : List Fatura) (c k : ℕ) : ℚ :=
  if k = 1 ∨ k = 2 then v (linhasCliente df c).headI
  else media (tailPandas 12 (faturasAnteriores v df c k))

/-- Lines 143--150 of `calcular_sd_vl_fatura`, squared: `0` for
`k ∈ {1, 2}`, otherwise the sample variance of
`faturas_anteriores.tail(12)` (the code stores its square root). -/
def calcular_sd2_vl_fatura (v : Fatura → ℚ) (df : List Fatura) (c k : ℕ) : ℚ :=
  if k = 1 ∨ k = 2 then 0
  else varAmostral (tailPandas 12 (faturasAnteriores v df c k))

/-- Post-sort invariant of the table: the rows of customer `c` carry
`numero_fatura` values `1, 2, …, N` in order, `N` being the row count.
This is what `gerar_faturas` (cumcount) plus
`sort_values(['cliente', 'numero_fatura'])` guarantee. -/
def clienteOrdenado (df : List Fatura) (c : ℕ) : Prop :=
  (linhasCliente df c).map (fun f => f.numero) =
    List.range' 1 (linhasCliente df c).length

instance (df : List Fatura) (c : ℕ) : Decidable (clienteOrdenado df c) :=
  inferInstanceAs (Decidable ((linhasCliente df c).map (fun f => f.numero) =
    List.range' 1 (linhasCliente df c).length))

/-- Window written from the spec's words (§4.4): the values of the
customer's invoices with sequence number in `max(1, k-12) .. k-1`. -/
def janelaSpec (v : Fatura → ℚ) (df : List Fatura) (c k : ℕ) : List ℚ :=
  ((linhasCliente df c).filter (fun f =>
    decide (max 1 (k - 12) ≤ f.numero) && decide (f.numero ≤ k - 1))).map v

/-- The row of customer `c` holding invoice number `j` (first such row in
table order). -/
def faturaNumero (df : List Fatura) (c j : ℕ) : Fatura :=
  ((linhasCliente df c).filter (fun f => f.numero == j)).headI

/-- Lines 262--280 of `calcular_total_devido` evaluated at customer `c`,
invoice `k`: branch on the current row's `status_pago`; sum `vl_fatura`
over the customer's rows with `numero_fatura` in the branch's window and
the branch's status column `False`. -/
def calcular_total_devido (df : List Fatura) (c k : ℕ) : ℚ :=
  let fc := linhasCliente df c
  let atual := (fc.filter (fun f => f.numero == k)).headI
  if atual.statusPago then
    ((fc.filter (fun f =>
        decide (max 1 (k - 3) ≤ f.numero) && decide (f.numero < k) &&
        (f.pagoAntesVencimento == false))).map (fun f => f.valor)).sum
  else
    ((fc.filter (fun f =>
        decide (max 1 (k - 12) ≤ f.numero) && decide (f.numero < k) &&
        (f.statusPago == false))).map (fun f => f.valor)).sum

/-- Spec window for a paid current invoice (§4.7): rows with sequence
number in `[max(1, k-3), k-1]` and `paid_before_due = false`. -/
def janelaPagaSpec (df : List Fatura) (c k : ℕ) : List Fatura :=
  (linhasCliente df c).filter (fun f =>
    decide (max 1 (k - 3) ≤ f.numero) && decide (f.numero ≤ k - 1) &&
    (f.pagoAntesVencimento == false))

/-- Spec window for an unpaid current invoice (§4.7): rows with sequence
number in `[max(1, k-12), k-1]` and `is_paid = false`. -/
def janelaAbertaSpec (df : List Fatura) (c k : ℕ) : List Fatura :=
  (linhasCliente df c).filter (fun f =>
    decide (max 1 (k - 12) ≤ f.numero) && decide (f.numero ≤ k - 1) &&
    (f.statusPago == false))

/-- pandas `groupby('cliente')['numero_fatura'].max()` for customer `c`. -/
def maxNumero (df : List Fatura) (c : ℕ) : ℕ :=
  ((linhasCliente df c).map (fun f => f.numero)).foldr max 0

/-- Line 89: `random.choice(range(max_numero_fatura - 1, max_numero_fatura))`.
The pool `range(n - 1, n)` is the list `[n - 1]`; choosing from a
one-element pool returns its head. -/
def escolhaPenultima (n : ℕ) : ℕ :=
  (List.range' (n - 1) (n - (n - 1))).headI

/-- Lines 77--92 of `marcar_faturas_pagas`: initialise `status_pago` to
`True`; set it to `False` on each customer's row of maximal
`numero_fatura` (sequence numbers are unique per customer, so `idxmax`
picks exactly that row); then, for customers with more than two invoices,
set it to `False` on the row drawn by `escolhaPenultima`. -/
def marcar_faturas_pagas (df : List Fatura) : List Fatura :=
  let df1 := df.map (fun f => { f with statusPago := true })
  let df2 := df1.map (fun f =>
    if f.numero == maxNumero df1 f.cliente then { f with statusPago := false } else f)
  df2.map (fun f =>
    if decide (2 < maxNumero df2 f.cliente) &&
        (f.numero == escolhaPenultima (maxNumero df2 f.cliente))
    then { f with statusPago := false } else f)

/-- Lines 231--240 of `calcular_frequencia_faturas_aberto_12_meses`
evaluated at customer `c`, invoice `k`, with `st` the `coluna_status`
accessor: `limite_superior = k - 1`, `limite_inferior = max(1,
limite_superior - 12)`, then the sum of the indicator `1 if not status`
over the rows with `limite_inferior < numero_fatura ≤ limite_superior`. -/
def calcular_frequencia_faturas_aberto (st : Fatura → Bool) (df : List Fatura)
    (c k : ℕ) : ℕ :=
  let fc := linhasCliente df c
  let ls := k - 1
  let li := max 1 (ls - 12)
  ((fc.filter (fun f => decide (f.numero ≤ ls) && decide (li < f.numero))).map
      (fun f => if st f then 0 else 1)).sum

/-- Count written from the spec's words (§4.6): invoices with sequence
number strictly below `k`, strictly above `max(1, k - 1 - 12)`, and
status column `false`. -/
def contagemSpec (st : Fatura → Bool) (df : List Fatura) (c k : ℕ) : ℕ :=
  ((linhasCliente df c).filter (fun f =>
    decide (f.numero < k) && decide (max 1 (k - 1 - 12) < f.numero) &&
    (st f == false))).length

/-- Row function of lines 167--169: `(value - mean) / sd` when the
standard deviation is non-zero, else `0`. -/
def zscoreLinha (v m sd : Fatura → ℚ) (f : Fatura) : ℚ :=
  if sd f ≠ 0 then (v f - m f) / sd f else 0

/-- Lines 166--171 of `calcular_zscore_faturas`: the `np.where` vectorised
over the table produces one z-score per row. -/
def calcular_zscore_faturas (v m sd : Fatura → ℚ) (df : List Fatura) : List ℚ :=
  df.map (fun f => if sd f ≠ 0 then (v f - m f) / sd f else 0)

/-- Line 64 helper: turn the appended `(cliente, valor)` rows into table
rows, giving each row `numero_fatura` = (number of earlier rows of the
same customer) + 1, i.e. `groupby('cliente').cumcount() + 1`.  The
status columns do not exist yet; they carry their later initial values. -/
def numerar (prev : List (ℕ × ℚ)) : List (ℕ × ℚ) → List Fatura
  | [] => []
  | (c, v) :: resto =>
      ⟨c, (prev.filter (fun p => p.1 == c)).length + 1, v, true, false, 0⟩ ::
        numerar (prev ++ [(c, v)]) resto

/-- Lines 55--66 of `gerar_faturas`, with the random draws already
resolved: `dados` is the list of `(cliente, valor)` pairs appended in
draw order, and `numero_fatura` is assigned by cumcount. -/
def gerar_faturas (dados : List (ℕ × ℚ)) : List Fatura :=
  numerar [] dados

/-- Lines 182--186 of `marcar_pagamento_antes_vencimento`: row `i` gets
`pago_antes_vencimento = random.choice([True, False])` (oracle `escolha i`)
when `status_pago` holds, else `False`. -/
def marcar_pagamento_antes_vencimento (escolha : ℕ → Bool) (df : List Fatura) :
    List Fatura :=
  df.enum.map (fun p =>
    { p.2 with pagoAntesVencimento := if p.2.statusPago then escolha p.1 else false })

/-- Lines 202--210 of `calcular_dias_pagamento`: row `i` gets the early
draw (oracle `amostraAntecipado i`, a `randint(dias_min_antecipado,
dias_max_antecipado)`) when `pago_antes_vencimento` holds, else the late
draw (oracle `amostraAtraso i`, a `randint(dias_min_atraso,
dias_max_atraso)`). -/
def calcular_dias_pagamento (amostraAntecipado amostraAtraso : ℕ → ℤ)
    (df : List Fatura) : List Fatura :=
  df.enum.map (fun p =>
    { p.2 with diasPagamento :=
        if p.2.pagoAntesVencimento then amostraAntecipado p.1 else amostraAtraso p.1 })

/-- Per-customer loop of lines 55--60 with numpy's error behaviour:
`np.random.normal(mean, scale, n)` raises `ValueError` exactly when the
scale is negative; otherwise it yields `n` draws (oracle `normF i j`).
`desvios i` is the sd drawn for the `i`-th customer, `contagens i` its
invoice count. -/
def gerarLoop (desvios : ℕ → ℚ) (contagens : ℕ → ℕ) (normF : ℕ → ℕ → ℚ) :
    List (ℕ × ℕ) → Except String (List (ℕ × ℚ))
  | [] => Except.ok []
  | (i, c) :: resto =>
      if desvios i < 0 then Except.error "normal: scale < 0"
      else
        match gerarLoop desvios contagens normF resto with
        | Except.error e => Except.error e
        | Except.ok linhas =>
            Except.ok ((List.range (contagens i)).map (fun j => (c, normF i j)) ++ linhas)

/-- Whole of `gerar_faturas` (lines 28--66) with numpy's error behaviour:
`np.random.randint(n_min, n_max + 1, …)` (line 51) raises `ValueError`
exactly when `low ≥ high`, i.e. when `n_min > n_max`, before anything is
generated; `np.random.uniform` (lines 52--53) never raises, whatever the
bounds; then the per-customer loop runs `gerarLoop`. -/
def gerar_faturas_exc (clientes : List ℕ) (nMin nMax : ℤ) (desvios : ℕ → ℚ)
    (contagens : ℕ → ℕ) (normF : ℕ → ℕ → ℚ) : Except String (List Fatura) :=
  if nMax + 1 ≤ nMin then Except.error "randint: low >= high"
  else
    match gerarLoop desvios contagens normF clientes.enum with
    | Except.error e => Except.error e
    | Except.ok linhas => Except.ok (gerar_faturas linhas)

/-- Concrete table: one customer (id 0) with 15 invoices of values
`1, 2, …, 15`. -/
def dfQuinze : List Fatura :=
  (List.range 15).map (fun i => ⟨0, i + 1, ((i + 1 : ℕ) : ℚ), true, false, 0⟩)

/-- Concrete table: one customer (id 0) with 3 invoices. -/
def dfTres : List Fatura :=
  [⟨0, 1, 10, true, false, 0⟩, ⟨0, 2, 20, true, false, 0⟩, ⟨0, 3, 30, true, false, 0⟩]

/-- Concrete unpaid single row used by the payment-timing witness. -/
def dfUmNaoPago : List Fatura := [⟨0, 1, 10, false, true, 0⟩]

/-! ## List lemmas -/

/-- Summing the indicator `1 if not status` over a list counts its rows
with status `false`. -/
theorem soma_indicadora (s : Fatura → Bool) :
    ∀ l : List Fatura,
      ((l.map (fun f => if s f then (0 : ℕ) else 1)).sum) =
        (l.filter (fun f => !(s f))).length := by
  intro l
  induction l with
  | nil => simp
  | cons x xs ih => cases hs : s x <;> simp [hs, ih, Nat.add_comm]

/-- In a list whose mapped keys read `a, a+1, …`, filtering by `key < k`
is taking the first `k - a` elements. -/
theorem filter_lt_eq_take {α : Type} (g : α → ℕ) (k : ℕ) :
    ∀ (l : List α) (a : ℕ), l.map g = List.range' a l.length →
      l.filter (fun x => decide (g x < k)) = l.take (k - a) := by
  intro l
  induction l with
  | nil => intro a _; simp
  | cons x xs ih =>
    intro a h
    rw [List.map_cons, List.length_cons, List.range'_succ] at h
    obtain ⟨hx, hxs⟩ := List.cons.inj h
    by_cases hak : a < k
    · rw [List.filter_cons_of_pos (by simp only [hx, decide_eq_true_eq]; omega)]
      rw [show k - a = (k - (a + 1)) + 1 by omega, List.take_succ_cons]
      rw [ih (a + 1) hxs]
    · rw [show k - a = 0 by omega, List.take_zero]
      rw [List.filter_cons_of_neg (by simp only [hx, decide_eq_true_eq]; omega)]
      apply List.filter_eq_nil_iff.mpr
      intro y hy
      have hmem : g y ∈ xs.map g := List.mem_map_of_mem g hy
      rw [hxs] at hmem
      have := List.mem_range'_1.mp hmem
      simp only [decide_eq_true_eq]
      omega

/-- In a list whose mapped keys read `a, a+1, …`, filtering by `b ≤ key`
is dropping the first `b - a` elements. -/
theorem filter_ge_eq_drop {α : Type} (g : α → ℕ) (b : ℕ) :
    ∀ (l : List α) (a : ℕ), l.map g = List.range' a l.length →
      l.filter (fun x => decide (b ≤ g x)) = l.drop (b - a) := by
  intro l
  induction l with
  | nil => intro a _; simp
  | cons x xs ih =>
    intro a h
    rw [List.map_cons, List.length_cons, List.range'_succ] at h
    obtain ⟨hx, hxs⟩ := List.cons.inj h
    by_cases hba : b ≤ a
    · rw [show b - a = 0 by omega, List.drop_zero]
      rw [List.filter_cons_of_pos (by simp only [hx, decide_eq_true_eq]; omega)]
      congr 1
      apply List.filter_eq_self.mpr
      intro y hy
      have hmem : g y ∈ xs.map g := List.mem_map_of_mem g hy
      rw [hxs] at hmem
      have := List.mem_range'_1.mp hmem
      simp only [decide_eq_true_eq]
      omega
    · rw [List.filter_cons_of_neg (by simp only [hx, decide_eq_true_eq]; omega)]
      rw [show b - a = (b - (a + 1)) + 1 by omega, List.drop_succ_cons]
      exact ih (a + 1) hxs

/-- Taking a prefix of `range'` yields a shorter `range'`. -/
theorem take_range_aux : ∀ (n m a : ℕ),
    (List.range' a n).take m = List.range' a (min m n) := by
  intro n
  induction n with
  | zero => intro m a; simp
  | succ p ih =>
    intro m a
    cases m with
    | zero => simp
    | succ q =>
      rw [List.range'_succ, List.take_succ_cons, ih q (a + 1),
        show min (q + 1) (p + 1) = min q p + 1 by omega, List.range'_succ]

/-! ## Claims -/

/-- C6: for every invoice, the z-score equals `(value − mean) / sd` when
the rolling sd is non-zero and exactly `0` when it is `0`; the table-level
pass is the row function mapped over the table, and the row function is a
pure function of the three input columns alone. -/
theorem C6_zscore (v m sd : Fatura → ℚ) (f : Fatura) :
    (sd f ≠ 0 → zscoreLinha v m sd f = (v f - m f) / sd f) ∧
    (sd f = 0 → zscoreLinha v m sd f = 0) ∧
    (∀ df : List Fatura, calcular_zscore_faturas v m sd df = df.map (zscoreLinha v m sd)) ∧
    (∀ g : Fatura, v f = v g → m f = m g → sd f = sd g →
      zscoreLinha v m sd f = zscoreLinha v m sd g) := by
  refine ⟨?_, ?_, ?_, ?_⟩
  · intro h; simp [zscoreLinha, h]
  · intro h; simp [zscoreLinha, h]
  · intro df; rfl
  · intro g hv hm hsd; simp [zscoreLinha, hv, hm, hsd]

theorem C6_zscore_witness :
    zscoreLinha (fun _ => 5) (fun _ => 3) (fun _ => 2) (default : Fatura) = 1 ∧
    zscoreLinha (fun _ => 5) (fun _ => 3) (fun _ => 0) (default : Fatura) = 0 := by
  constructor
  · have h := (C6_zscore (fun _ => (5 : ℚ)) (fun _ => 3) (fun _ => 2) default).1 (by norm_num)
    rw [h]; norm_num
  · exact (C6_zscore (fun _ => (5 : ℚ)) (fun _ => 3) (fun _ => 0) default).2.1 rfl

/-- C5: for every customer and invoice `k ≥ 1`, the open-invoice
frequency equals the number of that customer's invoices with sequence
number strictly below `k`, strictly above `max(1, k − 1 − 12)`, and
status column `false`; for `k = 1` the count is `0`. -/
theorem C5_frequencia_aberto (st : Fatura → Bool) (df : List Fatura) (c k : ℕ)
    (hk : 1 ≤ k) :
    calcular_frequencia_faturas_aberto st df c k = contagemSpec st df c k ∧
      (k = 1 → calcular_frequencia_faturas_aberto st df c k = 0) := by
  have hmain : calcular_frequencia_faturas_aberto st df c k = contagemSpec st df c k := by
    unfold calcular_frequencia_faturas_aberto contagemSpec
    rw [soma_indicadora, List.filter_filter]
    congr 1
    apply List.filter_congr
    intro f _
    have h1 : decide (f.numero ≤ k - 1) = decide (f.numero < k) := by
      simp only [decide_eq_decide]; omega
    rw [h1]
    cases hst : st f <;> simp [hst]
  refine ⟨hmain, ?_⟩
  intro hk1
  subst hk1
  rw [hmain]
  unfold contagemSpec
  have hnil : (linhasCliente df c).filter (fun f =>
      decide (f.numero < 1) && decide (max 1 (1 - 1 - 12) < f.numero) && (st f == false)) = [] :=
    List.filter_eq_nil_iff.mpr (by intro f _; simp; omega)
  rw [hnil]
  rfl

theorem C5_frequencia_witness :
    (calcular_frequencia_faturas_aberto (fun f => f.statusPago) dfTres 0 1 =
      contagemSpec (fun f => f.statusPago) dfTres 0 1) ∧
    calcular_frequencia_faturas_aberto (fun f => f.statusPago) dfTres 0 1 = 0 :=
  ⟨(C5_frequencia_aberto (fun f => f.statusPago) dfTres 0 1 (by decide)).1,
   (C5_frequencia_aberto (fun f => f.statusPago) dfTres 0 1 (by decide)).2 rfl⟩

/-- C10: for `2 ≤ k ≤ 13` the lower bound `max(1, k − 13)` collapses to
`1` and the comparison is strict, so the count ranges exactly over
invoices with sequence number in `[2, k)` — invoice #1 is never counted,
although it lies among the up-to-12 invoices immediately preceding `k`. -/
theorem C10_exclui_fatura_um (st : Fatura → Bool) (df : List Fatura) (c k : ℕ)
    (hk2 : 2 ≤ k) (hk13 : k ≤ 13) :
    (calcular_frequencia_faturas_aberto st df c k =
      ((linhasCliente df c).filter (fun f =>
        decide (2 ≤ f.numero) && decide (f.numero < k) && (st f == false))).length) ∧
    ∀ f ∈ (linhasCliente df c).filter (fun f =>
        decide (f.numero ≤ k - 1) && decide (max 1 (k - 1 - 12) < f.numero)),
      f.numero ≠ 1 := by
  constructor
  · unfold calcular_frequencia_faturas_aberto
    rw [soma_indicadora, List.filter_filter]
    congr 1
    apply List.filter_congr
    intro f _
    have h1 : decide (f.numero ≤ k - 1) = decide (f.numero < k) := by
      simp only [decide_eq_decide]; omega
    have h2 : decide (max 1 (k - 1 - 12) < f.numero) = decide (2 ≤ f.numero) := by
      simp only [decide_eq_decide]; omega
    rw [h1, h2]
    cases hst : st f <;> simp [hst, Bool.and_comm]
  · intro f hf
    rw [List.mem_filter] at hf
    have := hf.2
    simp only [Bool.and_eq_true, decide_eq_true_eq] at this
    omega

theorem C10_exclui_witness :
    calcular_frequencia_faturas_aberto (fun f => f.statusPago)
        (marcar_faturas_pagas dfTres) 0 3 =
      ((linhasCliente (marcar_faturas_pagas dfTres) 0).filter (fun f =>
        decide (2 ≤ f.numero) && decide (f.numero < 3) && (f.statusPago == false))).length ∧
    calcular_frequencia_faturas_aberto (fun f => f.statusPago)
        (marcar_faturas_pagas dfTres) 0 3 = 1 :=
  ⟨(C10_exclui_fatura_um (fun f => f.statusPago) (marcar_faturas_pagas dfTres) 0 3
      (by decide) (by decide)).1, by decide⟩

/-- C3: `total_due` branches on the current invoice's own `is_paid`: when
paid it sums the amounts of the customer's invoices with sequence number
in `[max(1, k−3), k−1]` having `paid_before_due = false`, when unpaid it
sums those in `[max(1, k−12), k−1]` having `is_paid = false`; the current
invoice is never in either window, and an empty window gives `0`. -/
theorem C3_total_devido (df : List Fatura) (c k : ℕ) (hk : 1 ≤ k) :
    (calcular_total_devido df c k =
      if (faturaNumero df c k).statusPago then
        ((janelaPagaSpec df c k).map (fun f => f.valor)).sum
      else ((janelaAbertaSpec df c k).map (fun f => f.valor)).sum) ∧
    (∀ f ∈ janelaPagaSpec df c k, f.numero ≠ k) ∧
    (∀ f ∈ janelaAbertaSpec df c k, f.numero ≠ k) ∧
    ((faturaNumero df c k).statusPago = true → janelaPagaSpec df c k = [] →
      calcular_total_devido df c k = 0) ∧
    ((faturaNumero df c k).statusPago = false → janelaAbertaSpec df c k = [] →
      calcular_total_devido df c k = 0) := by
  have hpred : ∀ n : ℕ, decide (n < k) = decide (n ≤ k - 1) := by
    intro n; simp only [decide_eq_decide]; omega
  have hfiltP : (linhasCliente df c).filter (fun f =>
        decide (max 1 (k - 3) ≤ f.numero) && decide (f.numero < k) &&
        (f.pagoAntesVencimento == false)) = janelaPagaSpec df c k := by
    unfold janelaPagaSpec
    apply List.filter_congr
    intro f _
    rw [hpred f.numero]
  have hfiltA : (linhasCliente df c).filter (fun f =>
        decide (max 1 (k - 12) ≤ f.numero) && decide (f.numero < k) &&
        (f.statusPago == false)) = janelaAbertaSpec df c k := by
    unfold janelaAbertaSpec
    apply List.filter_congr
    intro f _
    rw [hpred f.numero]
  have heq : calcular_total_devido df c k =
      if (faturaNumero df c k).statusPago then
        ((janelaPagaSpec df c k).map (fun f => f.valor)).sum
      else ((janelaAbertaSpec df c k).map (fun f => f.valor)).sum := by
    unfold calcular_total_devido faturaNumero
    simp only [hfiltP, hfiltA]
  refine ⟨heq, ?_, ?_, ?_, ?_⟩
  · intro f hf
    rw [janelaPagaSpec, List.mem_filter] at hf
    have := hf.2
    simp only [Bool.and_eq_true, decide_eq_true_eq] at this
    omega
  · intro f hf
    rw [janelaAbertaSpec, List.mem_filter] at hf
    have := hf.2
    simp only [Bool.and_eq_true, decide_eq_true_eq] at this
    omega
  · intro hst hnil
    rw [heq, if_pos (by rw [hst]), hnil]
    simp
  · intro hst hnil
    rw [heq, if_neg (by rw [hst]; exact Bool.false_ne_true), hnil]
    simp

theorem C3_total_devido_witness :
    calcular_total_devido (marcar_faturas_pagas dfTres) 0 3 = 20 := by
  have h := (C3_total_devido (marcar_faturas_pagas dfTres) 0 3 (by decide)).1
  rw [h, if_neg (by decide),
    show janelaAbertaSpec (marcar_faturas_pagas dfTres) 0 3 =
      [⟨0, 2, 20, false, false, 0⟩] from by decide]
  simp

/-- C1: for every customer and invoice `k > 2` (within the customer's
`1..N` range), the list of values the code feeds to `mean`/`std` — the
prior-invoice series followed by `.tail(12)` — is exactly the values of
that customer's invoices with sequence number `max(1, k−12) .. k−1`;
hence the rolling mean is the mean of that window, the rolling variance
(squared sample sd) is the sample variance of that window, and the window
never holds more than 12 invoices.  The window is carved out of
`linhasCliente df c` alone, so only this customer's invoices enter, and
its sequence numbers stop at `k − 1`, so invoice `k` itself never does. -/
theorem C1_janela_movel (v : Fatura → ℚ) (df : List Fatura) (c k : ℕ)
    (h : clienteOrdenado df c) (hk : 2 < k)
    (hkN : k ≤ (linhasCliente df c).length) :
    tailPandas 12 (faturasAnteriores v df c k) = janelaSpec v df c k ∧
    calcular_media_vl_fatura v df c k = media (janelaSpec v df c k) ∧
    calcular_sd2_vl_fatura v df c k = varAmostral (janelaSpec v df c k) ∧
    (janelaSpec v df c k).length ≤ 12 := by
  have h' : (linhasCliente df c).map (fun f => f.numero) =
      List.range' 1 (linhasCliente df c).length := h
  have hfa : faturasAnteriores v df c k = ((linhasCliente df c).take (k - 1)).map v := by
    unfold faturasAnteriores
    rw [filter_lt_eq_take (fun f => f.numero) k (linhasCliente df c) 1 h']
  have hlen : ((linhasCliente df c).take (k - 1)).length = k - 1 := by
    rw [List.length_take]; omega
  have hwin : tailPandas 12 (faturasAnteriores v df c k) =
      (((linhasCliente df c).take (k - 1)).drop (k - 1 - 12)).map v := by
    rw [hfa]
    unfold tailPandas
    rw [List.length_map, hlen, List.map_drop]
  have htakemap : ((linhasCliente df c).take (k - 1)).map (fun f => f.numero) =
      List.range' 1 ((linhasCliente df c).take (k - 1)).length := by
    rw [List.map_take, h', take_range_aux, hlen]
    congr 1
    omega
  have hleq : (linhasCliente df c).filter (fun f => decide (f.numero ≤ k - 1)) =
      (linhasCliente df c).take (k - 1) := by
    rw [show (fun f : Fatura => decide (f.numero ≤ k - 1)) =
        (fun f : Fatura => decide (f.numero < k)) from
      funext (fun f => by simp only [decide_eq_decide]; omega)]
    exact filter_lt_eq_take (fun f => f.numero) k (linhasCliente df c) 1 h'
  have hspec : janelaSpec v df c k =
      (((linhasCliente df c).take (k - 1)).drop (k - 1 - 12)).map v := by
    unfold janelaSpec
    have hnest : (linhasCliente df c).filter (fun f =>
        decide (max 1 (k - 12) ≤ f.numero) && decide (f.numero ≤ k - 1)) =
        ((linhasCliente df c).filter (fun f => decide (f.numero ≤ k - 1))).filter
          (fun f => decide (max 1 (k - 12) ≤ f.numero)) := by
      rw [List.filter_filter]
    rw [hnest, hleq,
      filter_ge_eq_drop (fun f => f.numero) (max 1 (k - 12))
        ((linhasCliente df c).take (k - 1)) 1 htakemap]
    congr 2
    omega
  have hlist : tailPandas 12 (faturasAnteriores v df c k) = janelaSpec v df c k := by
    rw [hwin, hspec]
  refine ⟨hlist, ?_, ?_, ?_⟩
  · unfold calcular_media_vl_fatura
    rw [if_neg (by omega)]
    exact congrArg media hlist
  · unfold calcular_sd2_vl_fatura
    rw [if_neg (by omega)]
    exact congrArg varAmostral hlist
  · rw [hspec, List.length_map, List.length_drop, hlen]
    omega

theorem C1_janela_witness :
    clienteOrdenado dfQuinze 0 ∧
    janelaSpec (fun f => f.valor) dfQuinze 0 15 =
      [3, 4, 5, 6, 7, 8, 9, 10, 11, 12, 13, 14] ∧
    tailPandas 12 (faturasAnteriores (fun f => f.valor) dfQuinze 0 15) =
      janelaSpec (fun f => f.valor) dfQuinze 0 15 :=
  ⟨by decide, by decide,
   (C1_janela_movel (fun f => f.valor) dfQuinze 0 15 (by decide) (by decide) (by decide)).1⟩

/-- C2: for invoices with sequence number 1 or 2 the rolling mean is the
value of that customer's invoice #1 and the rolling standard deviation is
`0` (its square is `0`). -/
theorem C2_primeiras_faturas (v : Fatura → ℚ) (df : List Fatura) (c k : ℕ)
    (h : clienteOrdenado df c) (hk : k = 1 ∨ k = 2)
    (hN : 1 ≤ (linhasCliente df c).length) :
    calcular_media_vl_fatura v df c k = v (faturaNumero df c 1) ∧
    calcular_sd2_vl_fatura v df c k = 0 := by
  have h' : (linhasCliente df c).map (fun f => f.numero) =
      List.range' 1 (linhasCliente df c).length := h
  have hhead : faturaNumero df c 1 = (linhasCliente df c).headI := by
    unfold faturaNumero
    cases hl : linhasCliente df c with
    | nil => rw [hl] at hN; simp at hN
    | cons x xs =>
      rw [hl] at h'
      rw [List.map_cons, List.length_cons, List.range'_succ] at h'
      obtain ⟨hx, _⟩ := List.cons.inj h'
      rw [List.filter_cons_of_pos (by simp [hx])]
      rfl
  constructor
  · unfold calcular_media_vl_fatura
    rw [if_pos hk, hhead]
  · unfold calcular_sd2_vl_fatura
    rw [if_pos hk]

theorem C2_primeiras_witness :
    calcular_media_vl_fatura (fun f => f.valor) dfTres 0 2 = 10 ∧
    calcular_sd2_vl_fatura (fun f => f.valor) dfTres 0 2 = 0 := by
  have h := C2_primeiras_faturas (fun f => f.valor) dfTres 0 2 (by decide)
    (Or.inr rfl) (by decide)
  refine ⟨?_, h.2⟩
  rw [h.1]
  decide

/-- Cumcount numbering: in the output of `numerar prev resto`, customer
`c`'s rows carry consecutive numbers continuing from the count of `c`'s
rows already in `prev`. -/
theorem numerar_linhas (c : ℕ) :
    ∀ (resto prev : List (ℕ × ℚ)),
      (linhasCliente (numerar prev resto) c).map (fun f => f.numero) =
        List.range' ((prev.filter (fun p => p.1 == c)).length + 1)
          ((resto.filter (fun p => p.1 == c)).length) := by
  intro resto
  induction resto with
  | nil => intro prev; simp [numerar, linhasCliente]
  | cons x restoT ih =>
    intro prev
    obtain ⟨cx, vx⟩ := x
    have hrec := ih (prev ++ [(cx, vx)])
    by_cases hc : cx = c
    · subst hc
      have hprev : ((prev ++ [(cx, vx)]).filter (fun p => p.1 == cx)).length =
          (prev.filter (fun p => p.1 == cx)).length + 1 := by
        rw [List.filter_append]; simp
      rw [numerar]
      unfold linhasCliente at hrec ⊢
      rw [List.filter_cons_of_pos (by simp), List.map_cons, hrec, hprev,
        List.filter_cons_of_pos (by simp), List.length_cons, List.range'_succ]
    · have hprev : ((prev ++ [(cx, vx)]).filter (fun p => p.1 == c)).length =
          (prev.filter (fun p => p.1 == c)).length := by
        rw [List.filter_append]; simp [hc]
      rw [numerar]
      unfold linhasCliente at hrec ⊢
      rw [List.filter_cons_of_neg (by simp [hc]), hrec, hprev,
        List.filter_cons_of_neg (by simp [hc])]

/-- C7: in the generated table every customer's rows carry sequence
numbers exactly `1, …, N` in draw order, `N` being that customer's row
count (equivalently, the number of value draws appended for them). -/
theorem C7_numeracao (dados : List (ℕ × ℚ)) (c : ℕ) :
    clienteOrdenado (gerar_faturas dados) c ∧
    (linhasCliente (gerar_faturas dados) c).length =
      (dados.filter (fun p => p.1 == c)).length := by
  unfold gerar_faturas
  have h := numerar_linhas c dados []
  simp only [List.filter_nil, List.length_nil, Nat.zero_add] at h
  have hlen : (linhasCliente (numerar [] dados) c).length =
      (dados.filter (fun p => p.1 == c)).length := by
    have h2 := congrArg List.length h
    rw [List.length_map, List.length_range'] at h2
    exact h2
  refine ⟨?_, hlen⟩
  unfold clienteOrdenado
  rw [h, hlen]

/-! ## Payment-status pass -/

/-- Projections through the conditional status update used by
`marcar_faturas_pagas`: the customer never changes. -/
theorem cliente_ite (p : Prop) [Decidable p] (b : Bool) (f : Fatura) :
    (if p then { f with statusPago := b } else f).cliente = f.cliente := by
  split <;> rfl

/-- Projections through the conditional status update used by
`marcar_faturas_pagas`: the sequence number never changes. -/
theorem numero_ite (p : Prop) [Decidable p] (b : Bool) (f : Fatura) :
    (if p then { f with statusPago := b } else f).numero = f.numero := by
  split <;> rfl

/-- Filtering a customer's rows commutes with a row map that preserves
the customer column. -/
theorem linhasCliente_map (g : Fatura → Fatura)
    (hg : ∀ f, (g f).cliente = f.cliente) (df : List Fatura) (c : ℕ) :
    linhasCliente (df.map g) c = (linhasCliente df c).map g := by
  unfold linhasCliente
  rw [List.filter_map]
  congr 1
  apply List.filter_congr
  intro f _
  simp [Function.comp, hg f]

/-- A row map preserving customer and sequence number preserves each
customer's maximal sequence number. -/
theorem maxNumero_map (g : Fatura → Fatura)
    (hgc : ∀ f, (g f).cliente = f.cliente) (hgn : ∀ f, (g f).numero = f.numero)
    (df : List Fatura) (c : ℕ) :
    maxNumero (df.map g) c = maxNumero df c := by
  unfold maxNumero
  rw [linhasCliente_map g hgc, List.map_map,
    show ((fun f : Fatura => f.numero) ∘ g) = (fun f : Fatura => f.numero) from
      funext (fun f => by simp [Function.comp, hgn f])]

/-- Folding `max` over `a, a+1, …, a+n-1`. -/
theorem foldr_max_range : ∀ (n a : ℕ),
    (List.range' a n).foldr max 0 = if n = 0 then 0 else a + n - 1 := by
  intro n
  induction n with
  | zero => intro a; simp
  | succ m ih =>
    intro a
    rw [List.range'_succ, List.foldr_cons, ih (a + 1)]
    by_cases hm : m = 0
    · subst hm; simp
    · rw [if_neg hm, if_neg (Nat.succ_ne_zero m)]
      omega

/-- Under the `1..N` numbering, the maximal sequence number is the row
count. -/
theorem maxNumero_of_ordenado (df : List Fatura) (c : ℕ)
    (h : clienteOrdenado df c) :
    maxNumero df c = (linhasCliente df c).length := by
  have h' : (linhasCliente df c).map (fun f => f.numero) =
      List.range' 1 (linhasCliente df c).length := h
  unfold maxNumero
  rw [h', foldr_max_range]
  split <;> omega

/-- The "random" pool `range(n - 1, n)` has a single element, so the
choice is deterministically `n - 1`. -/
theorem escolha_eq : ∀ n : ℕ, escolhaPenultima n = n - 1 := by
  intro n
  unfold escolhaPenultima
  cases n with
  | zero => rfl
  | succ m =>
    rw [show m + 1 - (m + 1 - 1) = 1 from by omega]
    rfl

/-- C4: after the payment-status pass, a customer's invoice is unpaid
exactly when it is the most recent one (sequence `N`) or — provided the
customer has more than two invoices — the second most recent (sequence
`N − 1`, the sole element of the collapsed "random choice" pool); every
other invoice is paid. -/
theorem C4_status_pago (df : List Fatura) (c : ℕ) (h : clienteOrdenado df c) :
    ∀ f ∈ linhasCliente (marcar_faturas_pagas df) c,
      (f.statusPago = false ↔
        (f.numero = (linhasCliente df c).length ∨
          (2 < (linhasCliente df c).length ∧
            f.numero = (linhasCliente df c).length - 1))) := by
  intro f hf
  simp only [marcar_faturas_pagas] at hf
  unfold linhasCliente at hf
  rw [List.mem_filter] at hf
  obtain ⟨hmem, hcli⟩ := hf
  rw [List.mem_map] at hmem
  obtain ⟨z, hz, rfl⟩ := hmem
  rw [List.mem_map] at hz
  obtain ⟨y, hy, rfl⟩ := hz
  rw [List.mem_map] at hy
  obtain ⟨x, hx, rfl⟩ := hy
  simp only [apply_ite Fatura.cliente, ite_self, beq_iff_eq] at hcli
  subst hcli
  have hM1 : maxNumero (df.map (fun f => { f with statusPago := true }))
      x.cliente = (linhasCliente df x.cliente).length := by
    rw [maxNumero_map (fun f => { f with statusPago := true })
        (fun _ => rfl) (fun _ => rfl) df x.cliente,
      maxNumero_of_ordenado df x.cliente h]
  have hM2 : maxNumero ((df.map (fun f => { f with statusPago := true })).map
        (fun f => if f.numero == maxNumero
            (df.map (fun f => { f with statusPago := true })) f.cliente
          then { f with statusPago := false } else f)) x.cliente =
      (linhasCliente df x.cliente).length := by
    rw [maxNumero_map (fun f => if f.numero == maxNumero
          (df.map (fun f => { f with statusPago := true })) f.cliente
        then { f with statusPago := false } else f)
        (fun f => cliente_ite _ _ f) (fun f => numero_ite _ _ f)
        (df.map (fun f => { f with statusPago := true })) x.cliente,
      hM1]
  simp only [apply_ite Fatura.cliente, apply_ite Fatura.numero,
    apply_ite Fatura.statusPago, ite_self]
  rw [hM2, hM1, escolha_eq]
  by_cases hn : x.numero = (linhasCliente df x.cliente).length <;>
    by_cases hgt : 2 < (linhasCliente df x.cliente).length <;>
      by_cases hn1 : x.numero = (linhasCliente df x.cliente).length - 1 <;>
        simp [hn, hgt, hn1]

theorem C4_status_witness :
    ((⟨0, 3, 30, false, false, 0⟩ : Fatura).statusPago = false ↔
      ((3 = (linhasCliente dfTres 0).length) ∨
        (2 < (linhasCliente dfTres 0).length ∧
          3 = (linhasCliente dfTres 0).length - 1))) :=
  C4_status_pago dfTres 0 (by decide) ⟨0, 3, 30, false, false, 0⟩ (by decide)

/-- C8: after the two payment-timing stages, a row whose `is_paid` is
`false` has `paid_before_due` forced to `false` and receives the
late-range draw for its row index — `randint(dias_min_atraso,
dias_max_atraso)`, lying in `[lo, hi]` (`[1, 100]` under the defaults) —
never the early draw. -/
theorem C8_atraso_nao_pago (escolha : ℕ → Bool)
    (amostraAntecipado amostraAtraso : ℕ → ℤ) (lo hi : ℤ)
    (hA : ∀ i, lo ≤ amostraAtraso i ∧ amostraAtraso i ≤ hi)
    (df : List Fatura) (i : ℕ)
    (h2 : i < (calcular_dias_pagamento amostraAntecipado amostraAtraso
        (marcar_pagamento_antes_vencimento escolha df)).length) :
    ((calcular_dias_pagamento amostraAntecipado amostraAtraso
        (marcar_pagamento_antes_vencimento escolha df)).get ⟨i, h2⟩).statusPago = false →
      ((calcular_dias_pagamento amostraAntecipado amostraAtraso
          (marcar_pagamento_antes_vencimento escolha df)).get ⟨i, h2⟩).pagoAntesVencimento
          = false ∧
      ((calcular_dias_pagamento amostraAntecipado amostraAtraso
          (marcar_pagamento_antes_vencimento escolha df)).get ⟨i, h2⟩).diasPagamento
          = amostraAtraso i ∧
      lo ≤ ((calcular_dias_pagamento amostraAntecipado amostraAtraso
          (marcar_pagamento_antes_vencimento escolha df)).get ⟨i, h2⟩).diasPagamento ∧
      ((calcular_dias_pagamento amostraAntecipado amostraAtraso
          (marcar_pagamento_antes_vencimento escolha df)).get ⟨i, h2⟩).diasPagamento ≤ hi := by
  intro hst
  simp only [calcular_dias_pagamento, marcar_pagamento_antes_vencimento,
    List.get_eq_getElem, List.getElem_map, List.getElem_enum] at hst ⊢
  simp only [hst, Bool.false_eq_true, if_false] at hst ⊢
  exact ⟨trivial, trivial, (hA i).1, (hA i).2⟩

theorem C8_atraso_witness :
    ((calcular_dias_pagamento (fun _ => (-3 : ℤ)) (fun _ => (50 : ℤ))
        (marcar_pagamento_antes_vencimento (fun _ => true) dfUmNaoPago)).get
          ⟨0, by decide⟩).pagoAntesVencimento = false ∧
    ((calcular_dias_pagamento (fun _ => (-3 : ℤ)) (fun _ => (50 : ℤ))
        (marcar_pagamento_antes_vencimento (fun _ => true) dfUmNaoPago)).get
          ⟨0, by decide⟩).diasPagamento = 50 ∧
    (1 : ℤ) ≤ ((calcular_dias_pagamento (fun _ => (-3 : ℤ)) (fun _ => (50 : ℤ))
        (marcar_pagamento_antes_vencimento (fun _ => true) dfUmNaoPago)).get
          ⟨0, by decide⟩).diasPagamento ∧
    ((calcular_dias_pagamento (fun _ => (-3 : ℤ)) (fun _ => (50 : ℤ))
        (marcar_pagamento_antes_vencimento (fun _ => true) dfUmNaoPago)).get
          ⟨0, by decide⟩).diasPagamento ≤ 100 :=
  C8_atraso_nao_pago (fun _ => true) (fun _ => (-3 : ℤ)) (fun _ => (50 : ℤ)) 1 100
    (by intro i; refine ⟨?_, ?_⟩ <;> norm_num) dfUmNaoPago 0 (by decide) (by decide)

/-- C9 counterexample: `sd_min = sd_max = 0` is a malformed configuration
by the claim's list (non-positive sd bounds), and the uniform draw from
`[0, 0]` can only ever be `0`; with a well-formed invoice-count range the
run raises no error at all — generation completes — contradicting "fails
fast with a descriptive error before any invoice generation begins". -/
theorem C9_contraexemplo :
    gerar_faturas_exc [7] 1 2 (fun _ => 0) (fun _ => 1) (fun _ _ => 100) =
      Except.ok [⟨7, 1, 100, true, false, 0⟩] := rfl

/-- C9 amended: only `n_invoices_min > n_invoices_max` fails fast (the
`randint` check, before any row is produced); the sd bounds are never
validated — a run with only non-negative drawn sds succeeds whatever the
configured sd bounds, and a negative drawn sd (possible only when a
negative value lies in the uniform range) surfaces as numpy's
`scale < 0` error during the per-customer loop, not before generation. -/
theorem C9_falha_rapida (clientes : List ℕ) (nMin nMax : ℤ) (desvios : ℕ → ℚ)
    (contagens : ℕ → ℕ) (normF : ℕ → ℕ → ℚ) :
    (nMax < nMin →
      gerar_faturas_exc clientes nMin nMax desvios contagens normF =
        Except.error "randint: low >= high") ∧
    (nMin ≤ nMax → (∀ i, 0 ≤ desvios i) →
      ∃ linhas, gerar_faturas_exc clientes nMin nMax desvios contagens normF =
        Except.ok linhas) ∧
    (∀ c resto, clientes = c :: resto → nMin ≤ nMax → desvios 0 < 0 →
      gerar_faturas_exc clientes nMin nMax desvios contagens normF =
        Except.error "normal: scale < 0") := by
  refine ⟨?_, ?_, ?_⟩
  · intro hlt
    unfold gerar_faturas_exc
    rw [if_pos (by omega)]
  · intro hle hpos
    have hloop : ∀ lst : List (ℕ × ℕ),
        ∃ l, gerarLoop desvios contagens normF lst = Except.ok l := by
      intro lst
      induction lst with
      | nil => exact ⟨[], rfl⟩
      | cons p rest ih =>
        obtain ⟨l, hl⟩ := ih
        obtain ⟨i, c⟩ := p
        exact ⟨_, by rw [gerarLoop, if_neg (not_lt.mpr (hpos i)), hl]⟩
    obtain ⟨l, hl⟩ := hloop clientes.enum
    refine ⟨gerar_faturas l, ?_⟩
    unfold gerar_faturas_exc
    rw [if_neg (by omega), hl]
  · intro c resto hcl hle hneg
    subst hcl
    unfold gerar_faturas_exc
    rw [if_neg (by omega), List.enum_cons, gerarLoop, if_pos hneg]

theorem C9_falha_witness :
    gerar_faturas_exc [7] 2 1 (fun _ => 0) (fun _ => 1) (fun _ _ => 100) =
      Except.error "randint: low >= high" :=
  (C9_falha_rapida [7] 2 1 (fun _ => 0) (fun _ => 1) (fun _ _ => 100)).1 (by decide)

end FaturasFake
